import Mathlib

/-!
Verification development for the Stripe Failed Payments Monitor
(`src/index.js`), a small Express service that receives payment-failure
webhook events, enriches them with customer data, and fans out an email
alert and a tabular-store record, keeping a bounded in-memory log buffer.

The JavaScript source is shallowly embedded as pure Lean functions.
External collaborators (the payment provider, the mail transport, the
tabular store, the clock) are modelled as oracle inputs: each outbound
call site of the source receives the outcome of that call as an
`Except String` value or as a function argument, so the handlers can be
analysed under every possible downstream outcome.  Minor-unit amounts
are modelled as exact naturals; JavaScript truthiness of optional string
fields (null / undefined / empty string are falsy) is modelled
explicitly by `jsOr`, `jsOrNull` and the empty-string tests below.
-/

/-- A log entry, as built by `addLog` in `src/index.js` lines 29-39:
an ISO timestamp string, a level string, and a message. -/
structure LogEntry where
  timestamp : String
  level : String
  message : String
deriving DecidableEq

/-- JavaScript `x || d` for an optional string `x`: `null`/`undefined`
and the empty string are falsy and yield the default. -/
def jsOr (x : Option String) (d : String) : String :=
  match x with
  | none => d
  | some s => if s = "" then d else s

/-- JavaScript `x || null` for an optional string: collapses the falsy
empty string to `null` (used for `charge.billing_details?.email || null`). -/
def jsOrNull (x : Option String) : Option String :=
  match x with
  | none => none
  | some s => if s = "" then none else some s

/-- JavaScript `String.prototype.includes` membership test. -/
def jsIncludes (s sub : String) : Bool :=
  (s.splitOn sub).length > 1

/-- `addLog` from `src/index.js` lines 29-39: push a timestamped entry,
then keep only the last 100 entries (`logs.slice(-100)`).  The current
clock reading is passed in as `now`. -/
def addLog (now : String) (logsv : List LogEntry) (message : String)
    (level : String) : List LogEntry :=
  let logsv := logsv ++ [{ timestamp := now, level := level, message := message }]
  if logsv.length > 100 then logsv.drop (logsv.length - 100) else logsv

/-- A sequence of `addLog` calls (message, level pairs), oldest first. -/
def runAddLogs (now : String) (msgs : List (String × String))
    (logsv : List LogEntry) : List LogEntry :=
  msgs.foldl (fun l p => addLog now l p.1 p.2) logsv

/-- The canonical failure record (`paymentData` objects in
`src/index.js`): payment id, optional customer id and email, amount in
minor units, lowercase currency code, failure reason, timestamp. -/
structure PaymentData where
  paymentId : String
  customerId : Option String
  customerEmail : Option String
  amount : Nat
  currency : String
  failureReason : String
  timestamp : String
deriving DecidableEq

/-- JavaScript `String.prototype.toUpperCase` (ASCII, which covers the
lowercase ISO currency codes the provider sends): uppercase every
character. -/
def jsToUpper (s : String) : String :=
  String.mk (s.data.map Char.toUpper)

/-- The JavaScript `(amount / 100).toFixed(2)` rendering of an exact
minor-unit amount: integer part, a dot, and exactly two decimal digits. -/
def natToFixed2 (amount : Nat) : String :=
  toString (amount / 100) ++ "." ++
    (if amount % 100 < 10 then "0" else "") ++ toString (amount % 100)

/-- The amount fragment of the alert email, `src/index.js` line 51:
a dollar sign, the two-decimal amount, a space, the upper-cased currency. -/
def emailAmountString (pd : PaymentData) : String :=
  "$" ++ natToFixed2 pd.amount ++ " " ++ jsToUpper pd.currency

/-- The customer line of the alert email, `src/index.js` line 50. -/
def emailCustomerLine (pd : PaymentData) : String :=
  "<p><strong>Customer:</strong> " ++ jsOr pd.customerEmail "Unknown" ++ "</p>"

/-- The amount line of the alert email, `src/index.js` line 51. -/
def emailAmountLine (pd : PaymentData) : String :=
  "<p><strong>Amount:</strong> " ++ emailAmountString pd ++ "</p>"

/-- The customer-id line of the alert email, `src/index.js` line 55. -/
def emailCustomerIdLine (pd : PaymentData) : String :=
  "<p><strong>Customer ID:</strong> " ++ jsOr pd.customerId "N/A" ++ "</p>"

/-- The HTML body of the alert email built by `sendEmailAlert`,
`src/index.js` lines 48-59 (template whitespace elided). -/
def renderEmailHtml (pd : PaymentData) : String :=
  "<h2>Payment Failure Alert</h2>" ++
  emailCustomerLine pd ++
  emailAmountLine pd ++
  "<p><strong>Failure Reason:</strong> " ++ pd.failureReason ++ "</p>" ++
  "<p><strong>Payment ID:</strong> " ++ pd.paymentId ++ "</p>" ++
  "<p><strong>Time:</strong> " ++ pd.timestamp ++ "</p>" ++
  emailCustomerIdLine pd ++
  "<hr>" ++
  "<p>This alert was generated automatically by your Stripe Failed Payments Monitor.</p>"

/-- `sendEmailAlert` from `src/index.js` lines 42-67.  The outcome of
`gmailTransporter.sendMail` is the oracle `sendMailResult`; the whole
body is wrapped in try/catch in the source, so the function never
throws to its caller.  Returns the updated log buffer and the list of
email bodies actually dispatched (empty when the send failed). -/
def sendEmailAlert (now : String) (sendMailResult : Except String Unit)
    (pd : PaymentData) (logsv : List LogEntry) :
    List LogEntry × List String :=
  match sendMailResult with
  | .ok _ =>
      (addLog now logsv ("Email alert sent successfully for payment " ++ pd.paymentId) "info",
       [renderEmailHtml pd])
  | .error e =>
      (addLog now logsv ("Failed to send email alert: " ++ e) "error", [])

/-- One row of the external tabular store, with the fixed column
mapping of `src/index.js` lines 72-82. -/
structure AirtableRecord where
  paymentId : String
  customerEmail : String
  customerId : String
  amount : String
  currency : String
  failureReason : String
  timestamp : String
  status : String
  alertSent : String
deriving DecidableEq

/-- The record built by `logToAirtable`, `src/index.js` lines 72-82. -/
def mkAirtableRecord (pd : PaymentData) : AirtableRecord :=
  { paymentId := pd.paymentId
    customerEmail := jsOr pd.customerEmail "Unknown"
    customerId := jsOr pd.customerId "N/A"
    amount := natToFixed2 pd.amount
    currency := jsToUpper pd.currency
    failureReason := pd.failureReason
    timestamp := pd.timestamp
    status := "Failed"
    alertSent := "Yes" }

/-- The schema-guidance warnings emitted when the tabular store reports
a missing table, `src/index.js` lines 89-98. -/
def schemaGuidanceMessages : List String :=
  ["Please create a \"Failed Payments\" table in your Growth AI Airtable base with the following fields:",
   "- Payment ID (Single line text)",
   "- Customer Email (Email)",
   "- Customer ID (Single line text)",
   "- Amount (Number)",
   "- Currency (Single line text)",
   "- Failure Reason (Long text)",
   "- Timestamp (Date)",
   "- Status (Single select: Failed)",
   "- Alert Sent (Single select: Yes, No)"]

/-- `logToAirtable` from `src/index.js` lines 70-101.  The outcome of
`base.create` is the oracle `createResult`; the body is wrapped in
try/catch, so the function never throws.  Returns the updated log
buffer and the list of records actually written. -/
def logToAirtable (now : String) (createResult : Except String Unit)
    (pd : PaymentData) (logsv : List LogEntry) :
    List LogEntry × List AirtableRecord :=
  match createResult with
  | .ok _ =>
      (addLog now logsv ("Payment failure logged to Airtable: " ++ pd.paymentId) "info",
       [mkAirtableRecord pd])
  | .error e =>
      let logsv := addLog now logsv ("Failed to log to Airtable: " ++ e) "error"
      let logsv :=
        if jsIncludes e "NOT_FOUND" then
          schemaGuidanceMessages.foldl (fun l m => addLog now l m "warn") logsv
        else logsv
      (logsv, [])

/-- A provider payment-intent object, with the fields read by
`processFailedPayment` (`src/index.js` lines 104-113). -/
structure PaymentIntent where
  id : String
  customer : Option String
  amount : Nat
  currency : String
  lastPaymentErrorMessage : Option String
deriving DecidableEq

/-- A provider invoice object: only its `payment_intent` reference is
read (`src/index.js` lines 262-263). -/
structure Invoice where
  payment_intent : Option String
deriving DecidableEq

/-- A provider charge object, with the fields read by the
`charge.failed` branch (`src/index.js` lines 272-281). -/
structure Charge where
  id : String
  customer : Option String
  billingDetailsEmail : Option String
  amount : Nat
  currency : String
  failureMessage : Option String
deriving DecidableEq

/-- Outcomes of the external collaborators reachable from the webhook
and test handlers: the clock, the customer lookup, the mail send, the
record-store write, and the payment-intent lookup. -/
structure DownstreamEnv where
  now : String
  retrieveCustomerEmail : String → Except String (Option String)
  sendMailResult : Except String Unit
  createRecordResult : Except String Unit
  retrievePaymentIntent : String → Except String PaymentIntent

/-- `processFailedPayment` from `src/index.js` lines 104-132: build the
failure record, best-effort fetch of the customer email (failure logged
at warn, field left absent), then email alert and tabular-store write.
Returns the updated log buffer, sent email bodies, written records. -/
def processFailedPayment (env : DownstreamEnv) (pi : PaymentIntent)
    (logsv : List LogEntry) :
    List LogEntry × List String × List AirtableRecord :=
  let pd : PaymentData :=
    { paymentId := pi.id
      customerId := pi.customer
      customerEmail := none
      amount := pi.amount
      currency := pi.currency
      failureReason := jsOr pi.lastPaymentErrorMessage "Unknown error"
      timestamp := env.now }
  let step : PaymentData × List LogEntry :=
    match pi.customer with
    | some cid =>
        if cid = "" then (pd, logsv)
        else
          match env.retrieveCustomerEmail cid with
          | .ok em => ({ pd with customerEmail := em }, logsv)
          | .error err =>
              (pd, addLog env.now logsv ("Could not retrieve customer email: " ++ err) "warn")
    | none => (pd, logsv)
  let pd := step.1
  let logsv := step.2
  let logsv := addLog env.now logsv
    ("Processing failed payment: " ++ pd.paymentId ++ " - $" ++ natToFixed2 pd.amount) "info"
  let se := sendEmailAlert env.now env.sendMailResult pd logsv
  let la := logToAirtable env.now env.createRecordResult pd se.1
  (la.1, se.2, la.2)

/-- A webhook event as returned by signature verification
(`stripe.webhooks.constructEvent`), classified by `event.type`. -/
inductive StripeEvent where
  | paymentIntentPaymentFailed (pi : PaymentIntent)
  | invoicePaymentFailed (inv : Invoice)
  | chargeFailed (ch : Charge)
  | otherEvent (ty : String)

/-- The `event.type` string of each event shape. -/
def StripeEvent.typeString : StripeEvent → String
  | .paymentIntentPaymentFailed _ => "payment_intent.payment_failed"
  | .invoicePaymentFailed _ => "invoice.payment_failed"
  | .chargeFailed _ => "charge.failed"
  | .otherEvent ty => ty

/-- Body of an HTTP response from the webhook route: the JSON
acknowledgement with received set to true, or a plain-text error. -/
inductive ResponseBody where
  | jsonReceived
  | textBody (s : String)
deriving DecidableEq

/-- An HTTP response: status code and body. -/
structure HttpResponse where
  status : Nat
  body : ResponseBody
deriving DecidableEq

/-- Everything observable from one `POST /webhook` invocation: the HTTP
response, the final log buffer, the sent emails, the written records. -/
structure WebhookResult where
  response : HttpResponse
  logs : List LogEntry
  emails : List String
  records : List AirtableRecord

/-- The event-type dispatch of the webhook handler, `src/index.js`
lines 258-285: payment-intent events are processed directly, invoice
events first resolve their payment-intent reference (a fetch failure is
logged at error and the event dropped), charge events build the record
inline, any other type is ignored. -/
def webhookDispatch (env : DownstreamEnv) (event : StripeEvent)
    (logsv : List LogEntry) :
    List LogEntry × List String × List AirtableRecord :=
  match event with
  | .paymentIntentPaymentFailed pi => processFailedPayment env pi logsv
  | .invoicePaymentFailed inv =>
      match inv.payment_intent with
      | some ref =>
          if ref = "" then (logsv, [], [])
          else
            match env.retrievePaymentIntent ref with
            | .ok pi => processFailedPayment env pi logsv
            | .error e =>
                (addLog env.now logsv
                  ("Error processing invoice payment failure: " ++ e) "error", [], [])
      | none => (logsv, [], [])
  | .chargeFailed ch =>
      let pd : PaymentData :=
        { paymentId := ch.id
          customerId := ch.customer
          customerEmail := jsOrNull ch.billingDetailsEmail
          amount := ch.amount
          currency := ch.currency
          failureReason := jsOr ch.failureMessage "Unknown error"
          timestamp := env.now }
      let se := sendEmailAlert env.now env.sendMailResult pd logsv
      let la := logToAirtable env.now env.createRecordResult pd se.1
      (la.1, se.2, la.2)
  | .otherEvent _ => (logsv, [], [])

/-- The `POST /webhook` handler, `src/index.js` lines 245-288.
`constructEventResult` is the outcome of signature verification: on
failure the handler logs at error and answers 400 with a plain-text
body; on success it logs the event type, dispatches, and always answers
200 with the JSON acknowledgement. -/
def handleWebhook (env : DownstreamEnv)
    (constructEventResult : Except String StripeEvent)
    (logsv : List LogEntry) : WebhookResult :=
  match constructEventResult with
  | .error e =>
      { response := { status := 400, body := .textBody ("Webhook Error: " ++ e) }
        logs := addLog env.now logsv ("Webhook signature verification failed: " ++ e) "error"
        emails := []
        records := [] }
  | .ok event =>
      let logsv := addLog env.now logsv ("Received webhook event: " ++ event.typeString) "info"
      let out := webhookDispatch env event logsv
      { response := { status := 200, body := .jsonReceived }
        logs := out.1
        emails := out.2.1
        records := out.2.2 }

/-- The `GET /logs` handler, `src/index.js` lines 191-196: the last 50
buffered entries (`logs.slice(-50)`) and a total equal to the current
buffer length (`logs.length`). -/
def getLogsEndpoint (logsv : List LogEntry) : List LogEntry × Nat :=
  (logsv.drop (logsv.length - 50), logsv.length)

/-- The result of the `GET /health` handler: the top-level status and
the three dependency check strings. -/
structure HealthResult where
  status : String
  stripeCheck : String
  gmailCheck : String
  airtableCheck : String
deriving DecidableEq

/-- The `GET /health` handler, `src/index.js` lines 154-188: the Stripe
and Gmail probes each set their check and flip the status to unhealthy
on failure; the Airtable probe only sets its check string. -/
def healthHandler (stripeOk gmailOk airtableOk : Bool) : HealthResult :=
  let status := "healthy"
  let sres : String × String :=
    if stripeOk then ("connected", status) else ("error", "unhealthy")
  let gres : String × String :=
    if gmailOk then ("connected", sres.2) else ("error", "unhealthy")
  let airtableCheck := if airtableOk then "connected" else "table_needs_creation"
  { status := gres.2
    stripeCheck := sres.1
    gmailCheck := gres.1
    airtableCheck := airtableCheck }

/-- The JSON response of `POST /test`: status code and the success flag. -/
structure TestResponse where
  status : Nat
  success : Bool
deriving DecidableEq

/-- The `POST /test` handler, `src/index.js` lines 199-229: log the
start, build the fixed synthetic record (`testId` stands for the
`Date.now()`-derived payment id and `alertAddr` for the configured
recipient), run the email alert and the tabular-store write, log
completion and answer 200.  The catch branch of the source (HTTP 500)
is unreachable because `sendEmailAlert` and `logToAirtable` wrap their
own bodies in try/catch and never throw, which in this embedding makes
both functions total. -/
def testHandler (env : DownstreamEnv) (testId alertAddr : String)
    (logsv : List LogEntry) :
    TestResponse × List LogEntry × List String × List AirtableRecord :=
  let logsv := addLog env.now logsv "Manual test initiated" "info"
  let pd : PaymentData :=
    { paymentId := testId
      customerId := some "cus_test_customer"
      customerEmail := some alertAddr
      amount := 2500
      currency := "usd"
      failureReason := "Test failure - insufficient funds"
      timestamp := env.now }
  let se := sendEmailAlert env.now env.sendMailResult pd logsv
  let la := logToAirtable env.now env.createRecordResult pd se.1
  let logsv := addLog env.now la.1 "Test completed successfully" "info"
  ({ status := 200, success := true }, logsv, se.2, la.2)

/-- Number of buffered entries at a given level. -/
def countLevel (lv : String) (logsv : List LogEntry) : Nat :=
  (logsv.filter (fun x => x.level == lv)).length

/-- Convenience constructor for a log entry. -/
def mkLogEntry (now lv m : String) : LogEntry :=
  { timestamp := now, level := lv, message := m }

/-- The failure record built by `processFailedPayment` when the
customer-email lookup does not populate the email field
(`src/index.js` lines 105-113). -/
def pdOfIntentNoEmail (env : DownstreamEnv) (pi : PaymentIntent) : PaymentData :=
  { paymentId := pi.id
    customerId := pi.customer
    customerEmail := none
    amount := pi.amount
    currency := pi.currency
    failureReason := jsOr pi.lastPaymentErrorMessage "Unknown error"
    timestamp := env.now }

/-- A concrete environment for witnesses: provider lookups fail, the
mail send and the record-store write succeed. -/
def sampleEnv : DownstreamEnv :=
  { now := "2025-01-01T00:00:00Z"
    retrieveCustomerEmail := fun _ => Except.error "lookup failed"
    sendMailResult := Except.ok ()
    createRecordResult := Except.ok ()
    retrievePaymentIntent := fun _ => Except.error "boom" }

/-- A concrete payment intent with a present customer id, for witnesses. -/
def piW : PaymentIntent :=
  { id := "pi_9"
    customer := some "cus_1"
    amount := 999
    currency := "eur"
    lastPaymentErrorMessage := none }

/-- A concrete failure record matching the rendering scenario of the
spec: amount 2500 minor units, currency usd, absent customer fields. -/
def pdW6 : PaymentData :=
  { paymentId := "ch_1"
    customerId := none
    customerEmail := none
    amount := 2500
    currency := "usd"
    failureReason := "card declined"
    timestamp := "2025-01-01T00:00:00Z" }

/-! ## Shared lemmas about the log buffer -/

/-- One `addLog` step equals appending the new entry and keeping the
last 100 entries of the result. -/
theorem addLog_eq_drop (now m lv : String) (l : List LogEntry) :
    addLog now l m lv = (l ++ [mkLogEntry now lv m]).drop (l.length + 1 - 100) := by
  unfold addLog mkLogEntry
  by_cases h : (l ++ [(⟨now, lv, m⟩ : LogEntry)]).length > 100
  · rw [if_pos h]
    simp [List.length_append]
  · rw [if_neg h]
    simp only [List.length_append, List.length_cons, List.length_nil] at h
    have h0 : l.length + 1 - 100 = 0 := by omega
    rw [h0, List.drop_zero]

/-- The buffer length after `addLog` is the old length plus one, capped
at 100. -/
theorem addLog_length (now m lv : String) (l : List LogEntry) :
    (addLog now l m lv).length = min (l.length + 1) 100 := by
  rw [addLog_eq_drop]
  simp only [List.length_drop, List.length_append, List.length_cons, List.length_nil]
  omega

/-- When the buffer has room, `addLog` is a plain append. -/
theorem addLog_of_room (now m lv : String) (l : List LogEntry)
    (h : l.length ≤ 99) :
    addLog now l m lv = l ++ [mkLogEntry now lv m] := by
  rw [addLog_eq_drop]
  have h0 : l.length + 1 - 100 = 0 := by omega
  rw [h0, List.drop_zero]

/-- The entry just recorded is always the last entry of the buffer. -/
theorem addLog_getLast (now m lv : String) (l : List LogEntry) :
    (addLog now l m lv).getLast? = some (mkLogEntry now lv m) := by
  rw [addLog_eq_drop,
      List.drop_append_of_le_length (by simp),
      List.getLast?_concat]

/-- Dropping from the left part of an append then dropping again is a
single drop of the sum. -/
theorem drop_append_drop {α : Type} (X Y : List α) (k j : Nat)
    (h : k ≤ X.length) :
    (X.drop k ++ Y).drop j = (X ++ Y).drop (k + j) := by
  rw [← List.drop_append_of_le_length h, List.drop_drop]

/-- Running a sequence of `addLog` calls from a buffer with at most 100
entries keeps, of the appended stream, exactly the most recent entries
that fit: the result is the concatenation trimmed to its last 100
elements. -/
theorem runAddLogs_eq (now : String) (msgs : List (String × String)) :
    ∀ l : List LogEntry, l.length ≤ 100 →
      runAddLogs now msgs l =
        (l ++ msgs.map (fun p => mkLogEntry now p.2 p.1)).drop
          (l.length + msgs.length - 100) := by
  induction msgs with
  | nil =>
      intro l h
      simp only [runAddLogs, List.foldl_nil, List.map_nil, List.append_nil,
        List.length_nil, Nat.add_zero]
      have h0 : l.length - 100 = 0 := by omega
      rw [h0, List.drop_zero]
  | cons p ps ih =>
      intro l h
      have hstep : runAddLogs now (p :: ps) l = runAddLogs now ps (addLog now l p.1 p.2) := by
        simp [runAddLogs]
      rw [hstep]
      have hlen : (addLog now l p.1 p.2).length = min (l.length + 1) 100 :=
        addLog_length now p.1 p.2 l
      have hle : (addLog now l p.1 p.2).length ≤ 100 := by omega
      rw [ih (addLog now l p.1 p.2) hle, hlen,
          addLog_eq_drop now p.1 p.2 l,
          drop_append_drop _ _ _ _ (by simp; omega)]
      have harith :
          (l.length + 1 - 100) + (min (l.length + 1) 100 + ps.length - 100) =
            l.length + (ps.length + 1) - 100 := by omega
      rw [harith]
      simp [List.append_assoc]

/-- Starting from an empty buffer, a sequence of `addLog` calls leaves
exactly the last 100 recorded entries, in original order. -/
theorem runAddLogs_from_nil (now : String) (msgs : List (String × String)) :
    runAddLogs now msgs [] =
      (msgs.map (fun p => mkLogEntry now p.2 p.1)).drop (msgs.length - 100) := by
  have h := runAddLogs_eq now msgs [] (by simp)
  simpa using h

/-- The buffer length after a run from empty is the number of recorded
entries, capped at 100. -/
theorem runAddLogs_length (now : String) (msgs : List (String × String)) :
    (runAddLogs now msgs []).length = min msgs.length 100 := by
  rw [runAddLogs_from_nil]
  simp only [List.length_drop, List.length_map]
  omega

/-- Filtering by level distributes over buffer concatenation. -/
theorem countLevel_append (lv : String) (l1 l2 : List LogEntry) :
    countLevel lv (l1 ++ l2) = countLevel lv l1 + countLevel lv l2 := by
  simp [countLevel, List.filter_append]

/-- Any value below 100 is rendered by the toFixed-style fragment as
exactly its two decimal digits. -/
theorem two_digit_split : ∀ r < 100,
    (if r < 10 then "0" else "") ++ toString r =
      toString (r / 10) ++ toString (r % 10) := by decide

/-! ## Claim theorems -/

/-- C1: For every inbound POST /webhook request whose signature verifies
successfully, the handler responds HTTP 200 with the received-true JSON
acknowledgement body, for every event shape and every outcome of the
downstream enrichment, email notification, and record-store write. -/
theorem webhook_valid_signature_responds_200
    (env : DownstreamEnv) (event : StripeEvent) (logsv : List LogEntry) :
    (handleWebhook env (Except.ok event) logsv).response =
      { status := 200, body := ResponseBody.jsonReceived } := rfl

/-- C2: For every inbound POST /webhook request whose signature fails
verification, the handler responds HTTP 400 with a plain-text error
body, records the failure as the newest buffer entry at error level,
and sends no email and writes no tabular-store record. -/
theorem webhook_invalid_signature_responds_400
    (env : DownstreamEnv) (e : String) (logsv : List LogEntry) :
    (handleWebhook env (Except.error e) logsv).response =
      { status := 400, body := ResponseBody.textBody ("Webhook Error: " ++ e) } ∧
    (handleWebhook env (Except.error e) logsv).emails = [] ∧
    (handleWebhook env (Except.error e) logsv).records = [] ∧
    (handleWebhook env (Except.error e) logsv).logs =
      addLog env.now logsv ("Webhook signature verification failed: " ++ e) "error" ∧
    (handleWebhook env (Except.error e) logsv).logs.getLast? =
      some (mkLogEntry env.now "error" ("Webhook signature verification failed: " ++ e)) :=
  ⟨rfl, rfl, rfl, rfl,
   addLog_getLast env.now ("Webhook signature verification failed: " ++ e) "error" logsv⟩

/-- C8: Every execution of POST /test answers HTTP 200 with success set
to true, for every outcome of the email send and the record-store
write; the HTTP 500 branch of the source is unreachable because
`sendEmailAlert` and `logToAirtable` catch all their own errors, which
makes both total in this embedding. -/
theorem test_endpoint_always_succeeds
    (env : DownstreamEnv) (testId alertAddr : String) (logsv : List LogEntry) :
    (testHandler env testId alertAddr logsv).1 =
      { status := 200, success := true } := rfl

/-- C9: In every execution of GET /health, the tabular-store check
string is table_needs_creation exactly when that probe fails, and the
top-level status is unhealthy exactly when the payment-provider probe
or the mail probe fails; the tabular-store probe never affects the
status. -/
theorem health_airtable_check_nonfatal (stripeOk gmailOk airtableOk : Bool) :
    (healthHandler stripeOk gmailOk airtableOk).airtableCheck =
      (if airtableOk then "connected" else "table_needs_creation") ∧
    ((healthHandler stripeOk gmailOk airtableOk).status = "unhealthy" ↔
      (stripeOk = false ∨ gmailOk = false)) ∧
    (healthHandler stripeOk gmailOk airtableOk).status =
      (healthHandler stripeOk gmailOk true).status := by
  cases stripeOk <;> cases gmailOk <;> cases airtableOk <;> decide

/-- C3 counterexample: after 150 recordings from an empty buffer, the
total reported by GET /logs is the buffer length 100, not the
cumulative count 150, refuting the claim that the total equals the true
cumulative number of entries ever recorded. -/
theorem logs_total_not_cumulative_counterexample :
    ¬ ((getLogsEndpoint (runAddLogs "t" (List.replicate 150 ("m", "info")) [])).2 = 150) := by
  intro hc
  have h : (runAddLogs "t" (List.replicate 150 ("m", "info")) []).length = 100 := by
    rw [runAddLogs_length]
    simp
  simp only [getLogsEndpoint] at hc
  rw [h] at hc
  exact absurd hc (by decide)

/-- C3 amended: GET /logs returns at most 50 entries, and its total
field equals the current buffer length, which is the cumulative number
of recorded entries capped at 100 - so it equals the true cumulative
count only while at most 100 entries have ever been recorded. -/
theorem logs_endpoint_truncation_and_total
    (now : String) (msgs : List (String × String)) (l : List LogEntry) :
    (getLogsEndpoint l).1.length ≤ 50 ∧
    (getLogsEndpoint l).2 = l.length ∧
    (getLogsEndpoint (runAddLogs now msgs [])).2 = min msgs.length 100 := by
  refine ⟨?_, rfl, ?_⟩
  · simp only [getLogsEndpoint, List.length_drop]
    omega
  · simp only [getLogsEndpoint]
    exact runAddLogs_length now msgs

/-- C4: The log buffer never exceeds 100 entries: each `addLog` keeps
exactly the most recent 100 entries of the appended sequence (dropping
the oldest first), a run from the empty buffer leaves exactly the last
100 recorded entries in original order, and in particular after 150
recordings the buffer holds exactly the last 100. -/
theorem log_buffer_capacity_invariant
    (now m lv : String) (l : List LogEntry) (msgs : List (String × String)) :
    addLog now l m lv = (l ++ [mkLogEntry now lv m]).drop (l.length + 1 - 100) ∧
    (addLog now l m lv).length ≤ 100 ∧
    runAddLogs now msgs [] =
      (msgs.map (fun p => mkLogEntry now p.2 p.1)).drop (msgs.length - 100) ∧
    (msgs.length = 150 →
      runAddLogs now msgs [] =
        (msgs.map (fun p => mkLogEntry now p.2 p.1)).drop 50) := by
  refine ⟨addLog_eq_drop now m lv l, ?_, runAddLogs_from_nil now msgs, ?_⟩
  · rw [addLog_length]
    omega
  · intro h150
    rw [runAddLogs_from_nil, h150]

/-- Witness for C4 at a concrete 150-entry run. -/
theorem log_buffer_capacity_invariant_witness :
    (List.replicate 150 ("m", "info")).length = 150 ∧
    runAddLogs "t" (List.replicate 150 ("m", "info")) [] =
      ((List.replicate 150 ("m", "info")).map (fun p => mkLogEntry "t" p.2 p.1)).drop 50 :=
  ⟨by simp,
   (log_buffer_capacity_invariant "t" "m" "info" [] (List.replicate 150 ("m", "info"))).2.2.2
     (by simp)⟩

/-- C5: For every invoice.payment_failed event whose referenced
payment-intent fetch throws, the handler sends no email and writes no
record, appends exactly one info entry for the event receipt and one
error entry for the fetch failure (so, when the buffer has room, the
error-level count rises by exactly one), and still responds HTTP 200. -/
theorem invoice_fetch_failure_drops_event
    (env : DownstreamEnv) (inv : Invoice) (ref e : String) (logsv : List LogEntry)
    (h1 : inv.payment_intent = some ref) (h2 : ref ≠ "")
    (h3 : env.retrievePaymentIntent ref = Except.error e) :
    (handleWebhook env (Except.ok (StripeEvent.invoicePaymentFailed inv)) logsv).response =
      { status := 200, body := ResponseBody.jsonReceived } ∧
    (handleWebhook env (Except.ok (StripeEvent.invoicePaymentFailed inv)) logsv).emails = [] ∧
    (handleWebhook env (Except.ok (StripeEvent.invoicePaymentFailed inv)) logsv).records = [] ∧
    (handleWebhook env (Except.ok (StripeEvent.invoicePaymentFailed inv)) logsv).logs =
      addLog env.now
        (addLog env.now logsv "Received webhook event: invoice.payment_failed" "info")
        ("Error processing invoice payment failure: " ++ e) "error" ∧
    (logsv.length ≤ 98 →
      (handleWebhook env (Except.ok (StripeEvent.invoicePaymentFailed inv)) logsv).logs =
        logsv ++
          [mkLogEntry env.now "info" "Received webhook event: invoice.payment_failed",
           mkLogEntry env.now "error" ("Error processing invoice payment failure: " ++ e)] ∧
      countLevel "error"
          (handleWebhook env (Except.ok (StripeEvent.invoicePaymentFailed inv)) logsv).logs =
        countLevel "error" logsv + 1) := by
  have key : handleWebhook env (Except.ok (StripeEvent.invoicePaymentFailed inv)) logsv =
      { response := { status := 200, body := ResponseBody.jsonReceived }
        logs := addLog env.now
          (addLog env.now logsv "Received webhook event: invoice.payment_failed" "info")
          ("Error processing invoice payment failure: " ++ e) "error"
        emails := []
        records := [] } := by
    simp only [handleWebhook, webhookDispatch, StripeEvent.typeString, h1, h3]
    rw [if_neg h2]
    rfl
  refine ⟨by rw [key], by rw [key], by rw [key], by rw [key], ?_⟩
  intro h4
  have r1 : addLog env.now logsv "Received webhook event: invoice.payment_failed" "info" =
      logsv ++ [mkLogEntry env.now "info" "Received webhook event: invoice.payment_failed"] :=
    addLog_of_room _ _ _ _ (by omega)
  have r2 : addLog env.now
      (logsv ++ [mkLogEntry env.now "info" "Received webhook event: invoice.payment_failed"])
      ("Error processing invoice payment failure: " ++ e) "error" =
      (logsv ++ [mkLogEntry env.now "info" "Received webhook event: invoice.payment_failed"]) ++
        [mkLogEntry env.now "error" ("Error processing invoice payment failure: " ++ e)] :=
    addLog_of_room _ _ _ _
      (by simp only [List.length_append, List.length_cons, List.length_nil]; omega)
  have hlogs : (handleWebhook env (Except.ok (StripeEvent.invoicePaymentFailed inv)) logsv).logs =
      logsv ++
        [mkLogEntry env.now "info" "Received webhook event: invoice.payment_failed",
         mkLogEntry env.now "error" ("Error processing invoice payment failure: " ++ e)] := by
    rw [key]
    show addLog env.now
        (addLog env.now logsv "Received webhook event: invoice.payment_failed" "info")
        ("Error processing invoice payment failure: " ++ e) "error" = _
    rw [r1, r2, List.append_assoc]
    rfl
  refine ⟨hlogs, ?_⟩
  rw [hlogs, countLevel_append]
  have c2 : countLevel "error"
      [mkLogEntry env.now "info" "Received webhook event: invoice.payment_failed",
       mkLogEntry env.now "error" ("Error processing invoice payment failure: " ++ e)] = 1 := rfl
  rw [c2]

/-- Witness for C5 at a concrete invoice whose payment-intent fetch
fails. -/
theorem invoice_fetch_failure_drops_event_witness :
    (Invoice.mk (some "pi_1")).payment_intent = some "pi_1" ∧
    ("pi_1" : String) ≠ "" ∧
    sampleEnv.retrievePaymentIntent "pi_1" = Except.error "boom" ∧
    ([] : List LogEntry).length ≤ 98 ∧
    countLevel "error"
        (handleWebhook sampleEnv
          (Except.ok (StripeEvent.invoicePaymentFailed (Invoice.mk (some "pi_1")))) []).logs =
      countLevel "error" ([] : List LogEntry) + 1 :=
  ⟨rfl, by decide, rfl, by decide,
   ((invoice_fetch_failure_drops_event sampleEnv (Invoice.mk (some "pi_1")) "pi_1" "boom" []
       rfl (by decide) rfl).2.2.2.2 (by decide)).2⟩

/-- C6: The notifier renders the amount as the minor-unit amount
divided by 100 with exactly two decimal digits and the currency code
upper-cased (so amount 2500 with currency usd renders exactly the
string dollar-sign 25.00 USD), and renders an absent customer email as
Unknown and an absent customer id as N/A. -/
theorem notifier_rendering_rules
    (pd : PaymentData) (h1 : pd.amount = 2500) (h2 : pd.currency = "usd")
    (h3 : pd.customerEmail = none) (h4 : pd.customerId = none) :
    emailAmountString pd = "$25.00 USD" ∧
    emailCustomerLine pd = "<p><strong>Customer:</strong> Unknown</p>" ∧
    emailCustomerIdLine pd = "<p><strong>Customer ID:</strong> N/A</p>" ∧
    (∀ a : Nat, ∃ d1 d2 : Nat, d1 < 10 ∧ d2 < 10 ∧ a % 100 = 10 * d1 + d2 ∧
      natToFixed2 a = toString (a / 100) ++ "." ++ toString d1 ++ toString d2) := by
  refine ⟨?_, ?_, ?_, ?_⟩
  · simp only [emailAmountString, h1, h2]
    decide
  · simp only [emailCustomerLine, h3]
    decide
  · simp only [emailCustomerIdLine, h4]
    decide
  · intro a
    refine ⟨a % 100 / 10, a % 100 % 10, by omega, by omega, by omega, ?_⟩
    have h100 : a % 100 < 100 := Nat.mod_lt a (by omega)
    have hsplit := two_digit_split (a % 100) h100
    unfold natToFixed2
    rw [String.append_assoc (toString (a / 100) ++ ".")
          (if a % 100 < 10 then "0" else "") (toString (a % 100)),
        hsplit, ← String.append_assoc]

/-- Witness for C6 at the concrete 2500-cent usd record. -/
theorem notifier_rendering_rules_witness :
    pdW6.amount = 2500 ∧ pdW6.currency = "usd" ∧ pdW6.customerEmail = none ∧
    pdW6.customerId = none ∧ emailAmountString pdW6 = "$25.00 USD" :=
  ⟨rfl, rfl, rfl, rfl, (notifier_rendering_rules pdW6 rfl rfl rfl rfl).1⟩

/-- C7: For every payment-intent event with a present customer id whose
customer-email lookup throws, the failure is logged at warn level, the
customer email stays absent in the failure record, and processing
continues: the email alert and the record-store write still run on
that record, for every outcome of those downstream calls. -/
theorem customer_lookup_failure_nonterminal
    (env : DownstreamEnv) (pi : PaymentIntent) (logsv : List LogEntry)
    (cid e : String) (h1 : pi.customer = some cid) (h2 : cid ≠ "")
    (h3 : env.retrieveCustomerEmail cid = Except.error e) :
    (pdOfIntentNoEmail env pi).customerEmail = none ∧
    processFailedPayment env pi logsv =
      (let l2 := addLog env.now
          (addLog env.now logsv ("Could not retrieve customer email: " ++ e) "warn")
          ("Processing failed payment: " ++ pi.id ++ " - $" ++ natToFixed2 pi.amount) "info"
       let se := sendEmailAlert env.now env.sendMailResult (pdOfIntentNoEmail env pi) l2
       let la := logToAirtable env.now env.createRecordResult (pdOfIntentNoEmail env pi) se.1
       (la.1, se.2, la.2)) ∧
    (env.sendMailResult = Except.ok () →
      (processFailedPayment env pi logsv).2.1 = [renderEmailHtml (pdOfIntentNoEmail env pi)]) ∧
    (env.createRecordResult = Except.ok () →
      (processFailedPayment env pi logsv).2.2 = [mkAirtableRecord (pdOfIntentNoEmail env pi)]) := by
  have key : processFailedPayment env pi logsv =
      (let l2 := addLog env.now
          (addLog env.now logsv ("Could not retrieve customer email: " ++ e) "warn")
          ("Processing failed payment: " ++ pi.id ++ " - $" ++ natToFixed2 pi.amount) "info"
       let se := sendEmailAlert env.now env.sendMailResult (pdOfIntentNoEmail env pi) l2
       let la := logToAirtable env.now env.createRecordResult (pdOfIntentNoEmail env pi) se.1
       (la.1, se.2, la.2)) := by
    simp only [processFailedPayment, pdOfIntentNoEmail, h1, h3]
    rw [if_neg h2]
  refine ⟨rfl, key, ?_, ?_⟩
  · intro hok
    rw [key]
    simp only [sendEmailAlert, hok]
  · intro hok
    rw [key]
    simp only [logToAirtable, hok]

/-- Witness for C7 at a concrete intent whose email lookup fails and
whose email alert succeeds. -/
theorem customer_lookup_failure_nonterminal_witness :
    piW.customer = some "cus_1" ∧
    ("cus_1" : String) ≠ "" ∧
    sampleEnv.retrieveCustomerEmail "cus_1" = Except.error "lookup failed" ∧
    (processFailedPayment sampleEnv piW []).2.1 =
      [renderEmailHtml (pdOfIntentNoEmail sampleEnv piW)] :=
  ⟨rfl, by decide, rfl,
   (customer_lookup_failure_nonterminal sampleEnv piW [] "cus_1" "lookup failed"
      rfl (by decide) rfl).2.2.1 rfl⟩

/-- C10: For every invoice.payment_failed event whose invoice has no
payment-intent reference, the handler sends no email, writes no
record, appends only the info-level receipt entry (no error entry),
answers HTTP 200 with the received-true body, and its result does not
depend on the payment-intent lookup at all. -/
theorem invoice_without_intent_reference_noop
    (env : DownstreamEnv) (inv : Invoice) (logsv : List LogEntry)
    (h : inv.payment_intent = none) :
    (handleWebhook env (Except.ok (StripeEvent.invoicePaymentFailed inv)) logsv).response =
      { status := 200, body := ResponseBody.jsonReceived } ∧
    (handleWebhook env (Except.ok (StripeEvent.invoicePaymentFailed inv)) logsv).emails = [] ∧
    (handleWebhook env (Except.ok (StripeEvent.invoicePaymentFailed inv)) logsv).records = [] ∧
    (handleWebhook env (Except.ok (StripeEvent.invoicePaymentFailed inv)) logsv).logs =
      addLog env.now logsv "Received webhook event: invoice.payment_failed" "info" ∧
    (∀ f : String → Except String PaymentIntent,
      handleWebhook { env with retrievePaymentIntent := f }
          (Except.ok (StripeEvent.invoicePaymentFailed inv)) logsv =
        handleWebhook env (Except.ok (StripeEvent.invoicePaymentFailed inv)) logsv) ∧
    (logsv.length ≤ 99 →
      countLevel "error"
          (handleWebhook env (Except.ok (StripeEvent.invoicePaymentFailed inv)) logsv).logs =
        countLevel "error" logsv) := by
  have key : handleWebhook env (Except.ok (StripeEvent.invoicePaymentFailed inv)) logsv =
      { response := { status := 200, body := ResponseBody.jsonReceived }
        logs := addLog env.now logsv "Received webhook event: invoice.payment_failed" "info"
        emails := []
        records := [] } := by
    simp only [handleWebhook, webhookDispatch, StripeEvent.typeString, h]
    rfl
  have keyf : ∀ f : String → Except String PaymentIntent,
      handleWebhook { env with retrievePaymentIntent := f }
          (Except.ok (StripeEvent.invoicePaymentFailed inv)) logsv =
        { response := { status := 200, body := ResponseBody.jsonReceived }
          logs := addLog env.now logsv "Received webhook event: invoice.payment_failed" "info"
          emails := []
          records := [] } := by
    intro f
    simp only [handleWebhook, webhookDispatch, StripeEvent.typeString, h]
    rfl
  refine ⟨by rw [key], by rw [key], by rw [key], by rw [key], ?_, ?_⟩
  · intro f
    rw [keyf f, key]
  · intro h4
    rw [key]
    show countLevel "error"
        (addLog env.now logsv "Received webhook event: invoice.payment_failed" "info") = _
    rw [addLog_of_room _ _ _ _ h4, countLevel_append]
    have c1 : countLevel "error"
        [mkLogEntry env.now "info" "Received webhook event: invoice.payment_failed"] = 0 := rfl
    rw [c1]
    omega

/-- Witness for C10 at a concrete invoice with no payment-intent
reference. -/
theorem invoice_without_intent_reference_noop_witness :
    (Invoice.mk none).payment_intent = none ∧
    (handleWebhook sampleEnv
        (Except.ok (StripeEvent.invoicePaymentFailed (Invoice.mk none))) []).response =
      { status := 200, body := ResponseBody.jsonReceived } :=
  ⟨rfl, (invoice_without_intent_reference_noop sampleEnv (Invoice.mk none) [] rfl).1⟩
